import Mathlib

/-!
Shallow embedding of the hash-based SPA router in
`public/scripts/router.js` of the kattali-textile-website repository.

The router owns four pieces of mutable state (`routes` is written once at
startup and never mutated afterwards, so it is modelled as a constant):
`currentRoute` (the path of the most recently rendered route), `cache`
(component name to raw markup), `prefetchedRoutes` (a set of paths), and
the loading-indicator visibility.  DOM effects relevant to the claims are
modelled as fields of the state (document title, active navigation link,
the `#app` container markup) plus an event trace; purely visual effects
(opacity, transforms, staggered animation classes, focus management) are
abstracted into the single `render` event that stands for the
`renderContent` swap.

The environment models the outside world of one router call: the network
(`fetch`, returning the body text on a 2xx response and `none` on a
network error or non-ok status) and, for each DOM-touching phase inside
the `try` block of `loadRoute`, whether that phase completes or throws
(`updatePageTitle`, `updateActiveNavigation`, `renderContent`,
`initializePageComponents`, `trackPageView`).  Any throw is caught by the
`catch` block of `loadRoute`, which renders the generic error block, and
the `finally` block hides the loading indicator; this pair is
`catchAndCleanup` below.  `loadComponent` catches its own fetch errors
internally and never throws.
-/

namespace KTL

/-- A route descriptor, as in `defineRoutes`: a path key, the component
(page) identifier used for fragment loading and hooks, and a title. -/
structure Route where
  path : String
  component : String
  title : String
deriving Repr, DecidableEq

/-- The static route table of `Router.defineRoutes`, in source order. -/
def defineRoutes : List Route :=
  [ ⟨"", "home", "Home"⟩,
    ⟨"home", "home", "Home"⟩,
    ⟨"about", "about", "About Us"⟩,
    ⟨"sustainability", "sustainability", "Sustainability"⟩,
    ⟨"certifications", "certifications", "Certifications"⟩,
    ⟨"clients", "clients", "Our Clients"⟩,
    ⟨"impact", "impact", "Impact Stories"⟩,
    ⟨"careers", "careers", "Careers"⟩,
    ⟨"news", "news", "News & Updates"⟩,
    ⟨"contact", "contact", "Contact Us"⟩,
    ⟨"rfq", "rfq", "Request for Quote"⟩,
    ⟨"investors", "investors", "Investor Relations"⟩,
    ⟨"privacy", "privacy", "Privacy Policy"⟩,
    ⟨"terms", "terms", "Terms of Service"⟩ ]

/-- `this.routes.get(path)`: the paths in the table are pairwise distinct,
so lookup in the insertion-ordered list matches the `Map` semantics. -/
def routesGet (path : String) : Option Route :=
  defineRoutes.find? (fun r => r.path = path)

/-- The route registered under the key `"home"`. -/
def homeRoute : Route := ⟨"home", "home", "Home"⟩

/-- `this.routes.get(path) || this.routes.get("home")` in `loadRoute`
(route objects are always truthy, so `||` falls through exactly when the
lookup misses).  The `getD` default is never reached: `"home"` is a key
of the table. -/
def resolveRoute (path : String) : Route :=
  match routesGet path with
  | some r => r
  | none => (routesGet "home").getD homeRoute

/-- The path normalization in `navigateTo`: the replace of the
leading-slash regex with the empty string strips leading slashes. -/
def normalizePath (path : String) : String :=
  String.mk (path.toList.dropWhile (fun c => c = '/'))

/-- The fallback fragment built by `Router.getErrorContent(component)`. -/
def getErrorContent (component : String) : String :=
  "\n      <div class=\"error-content\">\n        <h2>Content Unavailable</h2>\n        <p>Sorry, we\x27re having trouble loading the "
    ++ component ++
    " page content.</p>\n        <p>Please check your internet connection and try again.</p>\n        <button onclick=\"location.reload()\" class=\"btn btn-secondary\">Retry</button>\n      </div>\n    "

/-- The generic error block rendered by `Router.handleRouteError`. -/
def errorPageContent : String :=
  "\n      <div class=\"error-page\">\n        <h1>Oops! Something went wrong</h1>\n        <p>We\x27re having trouble loading this page. Please try again later.</p>\n        <button onclick=\"location.reload()\" class=\"btn btn-primary\">Refresh Page</button>\n      </div>\n    "

/-- `Router.updatePageTitle`: the configured template
`SEO.TITLE_TEMPLATE` (which is `%s | Kattali Textile Ltd.`) with `%s`
replaced by the route title. -/
def titleTemplate (title : String) : String :=
  title ++ " | Kattali Textile Ltd."

/-- Observable events of one router call, in the order they happen. -/
inductive Ev where
  | showLoading
  | fetchReq (component : String)
  | titleUpdate (title : String)
  | navUpdate (path : String)
  | render (content : String)
  | stateUpdate (path : String)
  | hooks (component : String)
  | track (title : String)
  | errorHandled
  | hideLoading
deriving Repr, DecidableEq

/-- The mutable router state (constructor fields of `Router` that the
claims are about, plus the DOM locations the router writes). -/
structure RouterState where
  currentRoute : Option String
  cache : List (String × String)
  prefetchedRoutes : List String
  docTitle : String
  activeNav : Option String
  dom : String
  loadingVisible : Bool
deriving Repr, DecidableEq

/-- State after the `Router` constructor ran (before any navigation). -/
def initialState : RouterState :=
  { currentRoute := none
    cache := []
    prefetchedRoutes := []
    docTitle := ""
    activeNav := none
    dom := ""
    loadingVisible := false }

/-- One router call sees the outside world through this record: the
network result per component, and whether each fallible phase inside
the `try` of `loadRoute` completes (`true`) or throws (`false`). -/
structure Env where
  fetch : String → Option String
  titleOk : Bool
  navOk : Bool
  renderOk : Bool
  hooksOk : Bool
  analyticsEnabled : Bool
  trackOk : Bool

/-- `this.cache.get(component)` over the association-list model; a newer
entry for a key shadows older ones, matching `Map.set` overwrite
semantics (in fact a key is only ever inserted on a confirmed miss). -/
def lookupCache (cache : List (String × String)) (component : String) : Option String :=
  (cache.find? (fun e => e.1 = component)).map (fun e => e.2)

/-- `Router.loadComponent(component)`: cache hit returns the cached text
with no network traffic; on a miss one fetch is issued, a success body is
cached and returned, and a failure (network error or non-ok status)
returns the fallback fragment without caching.  All of its own errors are
caught inside, so it never throws.  Returns
`(content, new cache, events)`. -/
def loadComponent (fetch : String → Option String) (cache : List (String × String))
    (component : String) : String × List (String × String) × List Ev :=
  match lookupCache cache component with
  | some content => (content, cache, [])
  | none =>
    match fetch component with
    | some content => (content, (component, content) :: cache, [Ev.fetchReq component])
    | none => (getErrorContent component, cache, [Ev.fetchReq component])

/-- The `catch` plus `finally` exit of `loadRoute`: `handleRouteError`
replaces the `#app` markup with the generic error block (the error is not
rethrown), then `hideLoading` hides the indicator. -/
def catchAndCleanup (s : RouterState) (tr : List Ev) : RouterState × List Ev :=
  ({ s with dom := errorPageContent, loadingVisible := false },
   tr ++ [Ev.errorHandled, Ev.hideLoading])

/-- `Router.loadRoute(path)`: resolve the route (defaulting to home),
return immediately when `currentRoute` already equals `route.path`,
otherwise show the loading indicator and run the phases of the `try`
block in source order — load component, update title, update active
navigation, render, set `currentRoute`, dispatch hooks, track the page
view (only when analytics is enabled) — with any phase throw diverted to
`catchAndCleanup`, and hide the indicator on the way out. -/
def loadRoute (env : Env) (s : RouterState) (path : String) : RouterState × List Ev :=
  let route := resolveRoute path
  if s.currentRoute = some route.path then
    (s, [])
  else
    let s0 := { s with loadingVisible := true }
    let lc := loadComponent env.fetch s0.cache route.component
    let content := lc.1
    let s1 := { s0 with cache := lc.2.1 }
    let tr1 := Ev.showLoading :: lc.2.2
    if env.titleOk = false then catchAndCleanup s1 tr1 else
    let s2 := { s1 with docTitle := titleTemplate route.title }
    let tr2 := tr1 ++ [Ev.titleUpdate route.title]
    if env.navOk = false then catchAndCleanup s2 tr2 else
    let s3 := { s2 with activeNav := some route.path }
    let tr3 := tr2 ++ [Ev.navUpdate route.path]
    if env.renderOk = false then catchAndCleanup s3 tr3 else
    let s4 := { s3 with dom := content }
    let tr4 := tr3 ++ [Ev.render content]
    let s5 := { s4 with currentRoute := some route.path }
    let tr5 := tr4 ++ [Ev.stateUpdate route.path]
    if env.hooksOk = false then catchAndCleanup s5 tr5 else
    let tr6 := tr5 ++ [Ev.hooks route.component]
    if env.analyticsEnabled = true ∧ env.trackOk = false then catchAndCleanup s5 tr6 else
    let tr7 := if env.analyticsEnabled = true then tr6 ++ [Ev.track route.title] else tr6
    ({ s5 with loadingVisible := false }, tr7 ++ [Ev.hideLoading])

/-- `Router.navigateTo(path)`: normalize, (history update is outside the
model), then `loadRoute` on the normalized path. -/
def navigateTo (env : Env) (s : RouterState) (path : String) : RouterState × List Ev :=
  loadRoute env s (normalizePath path)

/-- `Router.prefetchRoute(path)`: skip when already in the prefetched
set or when the path is not registered; otherwise run `loadComponent`
(which never throws, so the `catch` is unreachable) and add the path to
the set. -/
def prefetchRoute (env : Env) (s : RouterState) (path : String) : RouterState × List Ev :=
  if path ∈ s.prefetchedRoutes then
    (s, [])
  else
    match routesGet path with
    | none => (s, [])
    | some route =>
      let lc := loadComponent env.fetch s.cache route.component
      ({ s with cache := lc.2.1, prefetchedRoutes := path :: s.prefetchedRoutes },
       lc.2.2)

/-- A router entry point invoked during a session. -/
inductive Op where
  | nav (path : String)
  | prefetch (path : String)
deriving Repr, DecidableEq

/-- One session step; each step sees its own environment (the network
and the DOM may behave differently at different times). -/
def step (s : RouterState) : Env × Op → RouterState × List Ev
  | (env, Op.nav p) => navigateTo env s p
  | (env, Op.prefetch p) => prefetchRoute env s p

/-- A session: a sequence of router calls from a state, with the
concatenated event trace. -/
def run (s : RouterState) : List (Env × Op) → RouterState × List Ev
  | [] => (s, [])
  | eop :: rest =>
    let r := step s eop
    let r2 := run r.1 rest
    (r2.1, r.2 ++ r2.2)

/-- A network that answers every component request successfully. -/
def sampleFetch : String → Option String :=
  fun c => some ("<section>" ++ c ++ "</section>")

/-- Environment in which every phase completes and analytics is on. -/
def allOkEnv : Env :=
  { fetch := sampleFetch
    titleOk := true
    navOk := true
    renderOk := true
    hooksOk := true
    analyticsEnabled := true
    trackOk := true }

/-- Environment whose every fetch fails (network error or non-ok). -/
def failFetchEnv : Env :=
  { allOkEnv with fetch := fun _ => none }

/-- Environment in which the page-component hooks throw. -/
def hookFailEnv : Env :=
  { allOkEnv with hooksOk := false }

/-- Environment in which `renderContent` throws. -/
def renderFailEnv : Env :=
  { allOkEnv with renderOk := false }



theorem lookupCache_cons (k w c : String) (cache : List (String × String)) :
    lookupCache ((k, w) :: cache) c = if k = c then some w else lookupCache cache c := by
  by_cases h : k = c <;> simp [lookupCache, List.find?_cons, h]

theorem loadComponent_cache_mono (f : String → Option String)
    (cache : List (String × String)) (comp c v : String)
    (h : lookupCache cache c = some v) :
    lookupCache (loadComponent f cache comp).2.1 c = some v := by
  unfold loadComponent
  cases hm : lookupCache cache comp with
  | some content => simpa using h
  | none =>
    cases hf : f comp with
    | some content =>
      by_cases hc : comp = c
      · subst hc; rw [h] at hm; cases hm
      · simpa [lookupCache_cons, hc] using h
    | none => simpa using h


theorem loadRoute_cache_cases (env : Env) (s : RouterState) (p c v : String)
    (h : lookupCache s.cache c = some v) :
    lookupCache (loadRoute env s p).1.cache c = some v := by
  have hc : (loadRoute env s p).1.cache = s.cache ∨
      (loadRoute env s p).1.cache
        = (loadComponent env.fetch s.cache (resolveRoute p).component).2.1 := by
    simp only [loadRoute]
    repeat' split
    all_goals first
      | exact Or.inl rfl
      | exact Or.inr rfl
  rcases hc with hc | hc
  · rw [hc]; exact h
  · rw [hc]; exact loadComponent_cache_mono env.fetch s.cache _ c v h

theorem prefetchRoute_cache_mono (env : Env) (s : RouterState) (p c v : String)
    (h : lookupCache s.cache c = some v) :
    lookupCache (prefetchRoute env s p).1.cache c = some v := by
  have hc : (prefetchRoute env s p).1.cache = s.cache ∨
      ∃ comp, (prefetchRoute env s p).1.cache = (loadComponent env.fetch s.cache comp).2.1 := by
    simp only [prefetchRoute]
    repeat' split
    all_goals first
      | exact Or.inl rfl
      | exact Or.inr ⟨_, rfl⟩
  rcases hc with hc | ⟨comp, hc⟩
  · rw [hc]; exact h
  · rw [hc]; exact loadComponent_cache_mono env.fetch s.cache comp c v h

theorem step_cache_mono (s : RouterState) (eop : Env × Op) (c v : String)
    (h : lookupCache s.cache c = some v) :
    lookupCache (step s eop).1.cache c = some v := by
  obtain ⟨env, op⟩ := eop
  cases op with
  | nav p => exact loadRoute_cache_cases env s (normalizePath p) c v h
  | prefetch p => exact prefetchRoute_cache_mono env s p c v h

theorem run_cache_mono (c v : String) :
    ∀ (ops : List (Env × Op)) (s : RouterState), lookupCache s.cache c = some v →
      lookupCache (run s ops).1.cache c = some v := by
  intro ops
  induction ops with
  | nil => intro s h; exact h
  | cons eop rest ih => intro s h; exact ih _ (step_cache_mono s eop c v h)

theorem loadRoute_prefetched_eq (env : Env) (s : RouterState) (p : String) :
    (loadRoute env s p).1.prefetchedRoutes = s.prefetchedRoutes := by
  simp only [loadRoute]
  repeat' split
  all_goals rfl

theorem prefetchRoute_prefetched_mono (env : Env) (s : RouterState) (p q : String)
    (h : q ∈ s.prefetchedRoutes) :
    q ∈ (prefetchRoute env s p).1.prefetchedRoutes := by
  have hc : (prefetchRoute env s p).1.prefetchedRoutes = s.prefetchedRoutes ∨
      (prefetchRoute env s p).1.prefetchedRoutes = p :: s.prefetchedRoutes := by
    simp only [prefetchRoute]
    repeat' split
    all_goals first
      | exact Or.inl rfl
      | exact Or.inr rfl
  rcases hc with hc | hc
  · rw [hc]; exact h
  · rw [hc]; exact List.mem_cons_of_mem p h

theorem step_prefetched_mono (s : RouterState) (eop : Env × Op) (q : String)
    (h : q ∈ s.prefetchedRoutes) :
    q ∈ (step s eop).1.prefetchedRoutes := by
  obtain ⟨env, op⟩ := eop
  cases op with
  | nav p =>
    show q ∈ (loadRoute env s (normalizePath p)).1.prefetchedRoutes
    rw [loadRoute_prefetched_eq]; exact h
  | prefetch p => exact prefetchRoute_prefetched_mono env s p q h

theorem run_prefetched_mono (q : String) :
    ∀ (ops : List (Env × Op)) (s : RouterState), q ∈ s.prefetchedRoutes →
      q ∈ (run s ops).1.prefetchedRoutes := by
  intro ops
  induction ops with
  | nil => intro s h; exact h
  | cons eop rest ih => intro s h; exact ih _ (step_prefetched_mono s eop q h)

theorem loadRoute_success (env : Env) (s : RouterState) (p : String)
    (hni : ¬ s.currentRoute = some (resolveRoute p).path)
    (ht : env.titleOk = true) (hn : env.navOk = true) (hr : env.renderOk = true)
    (hh : env.hooksOk = true) (ha : env.analyticsEnabled = true) (hk : env.trackOk = true) :
    loadRoute env s p =
      ({ s with
          cache := (loadComponent env.fetch s.cache (resolveRoute p).component).2.1,
          docTitle := titleTemplate (resolveRoute p).title,
          activeNav := some (resolveRoute p).path,
          dom := (loadComponent env.fetch s.cache (resolveRoute p).component).1,
          currentRoute := some (resolveRoute p).path,
          loadingVisible := false },
       Ev.showLoading :: (loadComponent env.fetch s.cache (resolveRoute p).component).2.2 ++
         [Ev.titleUpdate (resolveRoute p).title,
          Ev.navUpdate (resolveRoute p).path,
          Ev.render (loadComponent env.fetch s.cache (resolveRoute p).component).1,
          Ev.stateUpdate (resolveRoute p).path,
          Ev.hooks (resolveRoute p).component,
          Ev.track (resolveRoute p).title,
          Ev.hideLoading]) := by
  simp only [loadRoute, ht, hn, hr, hh, ha, hk]
  rw [if_neg hni]
  simp [List.append_assoc]

/-- Claim C1: re-navigation idempotence holds at the route-path level, not at the
pageId level.  `loadRoute` compares `currentRoute` with `route.path`; when
they are equal it returns immediately with no events and an unchanged
state (no fetch, no cache mutation, no DOM replacement, no title update). -/
theorem c1_path_level_idempotence (env : Env) (s : RouterState) (p : String)
    (h : s.currentRoute = some (resolveRoute p).path) :
    loadRoute env s p = (s, []) := by
  simp only [loadRoute]
  rw [if_pos h]

theorem c1_path_level_idempotence_witness :
    loadRoute allOkEnv (loadRoute allOkEnv initialState "about").1 "about"
      = ((loadRoute allOkEnv initialState "about").1, []) :=
  c1_path_level_idempotence allOkEnv (loadRoute allOkEnv initialState "about").1 "about" (by decide)

/-- Claim C1 counterexample: after reaching the page via the empty path, the
current page has pageId `"home"` and so does the route resolved for
`"home"`, yet navigating to `"home"` is not a no-op — it performs a title
update and a DOM replacement. -/
theorem c1_counterexample :
    (resolveRoute "").component = (resolveRoute "home").component ∧
    (loadRoute allOkEnv initialState "").1.currentRoute = some "" ∧
    loadRoute allOkEnv (loadRoute allOkEnv initialState "").1 "home"
      ≠ ((loadRoute allOkEnv initialState "").1, []) ∧
    Ev.titleUpdate "Home" ∈ (loadRoute allOkEnv (loadRoute allOkEnv initialState "").1 "home").2 ∧
    Ev.render "<section>home</section>"
      ∈ (loadRoute allOkEnv (loadRoute allOkEnv initialState "").1 "home").2 := by
  decide

/-- Claim C2: after every completed navigation whose title, navigation and
render phases did not throw, `currentRoute` equals the `path` of the
resolved (most recently successfully rendered) route. -/
theorem c2_current_route_invariant (env : Env) (s : RouterState) (p : String)
    (ht : env.titleOk = true) (hn : env.navOk = true) (hr : env.renderOk = true) :
    (loadRoute env s p).1.currentRoute = some (resolveRoute p).path := by
  simp only [loadRoute, ht, hn, hr]
  by_cases hid : s.currentRoute = some (resolveRoute p).path
  · rw [if_pos hid]; exact hid
  · rw [if_neg hid]
    repeat' split
    all_goals first
      | rfl
      | simp_all

theorem c2_current_route_invariant_witness :
    (loadRoute allOkEnv initialState "about").1.currentRoute = some (resolveRoute "about").path :=
  c2_current_route_invariant allOkEnv initialState "about" rfl rfl rfl

/-- Claim C2 counterexample: the route registered under the empty path has
pageId `"home"`, but after successfully rendering it the current-page
field holds the path `""`, not the pageId `"home"`. -/
theorem c2_counterexample :
    (resolveRoute "").component = "home" ∧
    Ev.render "<section>home</section>" ∈ (loadRoute allOkEnv initialState "").2 ∧
    (loadRoute allOkEnv initialState "").1.currentRoute = some "" ∧
    (loadRoute allOkEnv initialState "").1.currentRoute ≠ some "home" := by
  decide

/-- Claim C6: a navigation whose normalized path is not a key of the route
table behaves exactly like an explicit navigation to `"home"`. -/
theorem c6_default_route_fallback (env : Env) (s : RouterState) (p : String)
    (h : routesGet (normalizePath p) = none) :
    navigateTo env s p = loadRoute env s "home" := by
  have hres : resolveRoute (normalizePath p) = resolveRoute "home" := by
    rw [resolveRoute, h]; decide
  rw [navigateTo, loadRoute, loadRoute, hres]

theorem c6_default_route_fallback_witness :
    navigateTo allOkEnv initialState "/unknown-page" = loadRoute allOkEnv initialState "home" :=
  c6_default_route_fallback allOkEnv initialState "/unknown-page" (by decide)

/-- Claim C8: within one non-idempotent `loadRoute` call with no phase throwing
and analytics enabled, the events are exactly: component load (cache
probe and possibly one fetch), then title update, then active-navigation
update, then render, then state update, then hooks, then analytics —
in that strict order. -/
theorem c8_phase_ordering (env : Env) (s : RouterState) (p : String)
    (hni : ¬ s.currentRoute = some (resolveRoute p).path)
    (ht : env.titleOk = true) (hn : env.navOk = true) (hr : env.renderOk = true)
    (hh : env.hooksOk = true) (ha : env.analyticsEnabled = true) (hk : env.trackOk = true) :
    (loadRoute env s p).2 =
      Ev.showLoading :: (loadComponent env.fetch s.cache (resolveRoute p).component).2.2 ++
        [Ev.titleUpdate (resolveRoute p).title,
         Ev.navUpdate (resolveRoute p).path,
         Ev.render (loadComponent env.fetch s.cache (resolveRoute p).component).1,
         Ev.stateUpdate (resolveRoute p).path,
         Ev.hooks (resolveRoute p).component,
         Ev.track (resolveRoute p).title,
         Ev.hideLoading] := by
  rw [loadRoute_success env s p hni ht hn hr hh ha hk]

theorem c8_phase_ordering_witness :
    (loadRoute allOkEnv initialState "about").2 =
      Ev.showLoading :: (loadComponent allOkEnv.fetch initialState.cache (resolveRoute "about").component).2.2 ++
        [Ev.titleUpdate (resolveRoute "about").title,
         Ev.navUpdate (resolveRoute "about").path,
         Ev.render (loadComponent allOkEnv.fetch initialState.cache (resolveRoute "about").component).1,
         Ev.stateUpdate (resolveRoute "about").path,
         Ev.hooks (resolveRoute "about").component,
         Ev.track (resolveRoute "about").title,
         Ev.hideLoading] :=
  c8_phase_ordering allOkEnv initialState "about" (by decide) rfl rfl rfl rfl rfl rfl

/-- Claim C3: when the fragment fetch for the resolved pageId fails and no
later phase throws, `loadComponent` returns the Content Unavailable
fallback and caches nothing, and `loadRoute` still completes: the
fallback markup is rendered, the loading indicator is hidden, the catch
block is never reached, and the trace ends with the cleanup. -/
theorem c3_fetch_failure_fallback (env : Env) (s : RouterState) (p : String)
    (hni : ¬ s.currentRoute = some (resolveRoute p).path)
    (hmiss : lookupCache s.cache (resolveRoute p).component = none)
    (hfail : env.fetch (resolveRoute p).component = none)
    (ht : env.titleOk = true) (hn : env.navOk = true) (hr : env.renderOk = true)
    (hh : env.hooksOk = true) (hk : env.trackOk = true) :
    loadComponent env.fetch s.cache (resolveRoute p).component
      = (getErrorContent (resolveRoute p).component, s.cache,
         [Ev.fetchReq (resolveRoute p).component]) ∧
    (loadRoute env s p).1.dom = getErrorContent (resolveRoute p).component ∧
    (loadRoute env s p).1.loadingVisible = false ∧
    lookupCache (loadRoute env s p).1.cache (resolveRoute p).component = none ∧
    Ev.errorHandled ∉ (loadRoute env s p).2 ∧
    (loadRoute env s p).2.getLast? = some Ev.hideLoading := by
  have hlc : loadComponent env.fetch s.cache (resolveRoute p).component
      = (getErrorContent (resolveRoute p).component, s.cache,
         [Ev.fetchReq (resolveRoute p).component]) := by
    rw [loadComponent, hmiss, hfail]
  refine ⟨hlc, ?_⟩
  simp only [loadRoute, ht, hn, hr, hh, hk]
  rw [if_neg hni]
  cases ha : env.analyticsEnabled <;>
    simp [hlc, hmiss, List.getLast?]

theorem c3_fetch_failure_fallback_witness :
    loadComponent failFetchEnv.fetch initialState.cache (resolveRoute "news").component
      = (getErrorContent (resolveRoute "news").component, initialState.cache,
         [Ev.fetchReq (resolveRoute "news").component]) ∧
    (loadRoute failFetchEnv initialState "news").1.dom
      = getErrorContent (resolveRoute "news").component ∧
    (loadRoute failFetchEnv initialState "news").1.loadingVisible = false ∧
    lookupCache (loadRoute failFetchEnv initialState "news").1.cache
      (resolveRoute "news").component = none ∧
    Ev.errorHandled ∉ (loadRoute failFetchEnv initialState "news").2 ∧
    (loadRoute failFetchEnv initialState "news").2.getLast? = some Ev.hideLoading :=
  c3_fetch_failure_fallback failFetchEnv initialState "news"
    (by decide) (by decide) rfl rfl rfl rfl rfl rfl

/-- Claim C4: a first successful `loadComponent` for an uncached pageId issues
one fetch and caches the body; any later `loadComponent` for it — even
against a different network — returns the identical string with no fetch
event; and the cached entry survives every later navigation or prefetch
of a session unchanged. -/
theorem c4_cache_correctness (f f2 : String → Option String) (s : RouterState)
    (c v : String) (ops : List (Env × Op))
    (hmiss : lookupCache s.cache c = none) (hsucc : f c = some v) :
    loadComponent f s.cache c = (v, (c, v) :: s.cache, [Ev.fetchReq c]) ∧
    loadComponent f2 ((c, v) :: s.cache) c = (v, (c, v) :: s.cache, []) ∧
    lookupCache (run { s with cache := (c, v) :: s.cache } ops).1.cache c = some v := by
  have hhit : lookupCache ((c, v) :: s.cache) c = some v := by
    rw [lookupCache_cons]; simp
  refine ⟨?_, ?_, ?_⟩
  · rw [loadComponent, hmiss, hsucc]
  · rw [loadComponent, hhit]
  · exact run_cache_mono c v ops _ hhit

theorem c4_cache_correctness_witness :
    loadComponent sampleFetch initialState.cache "about"
      = ("<section>about</section>", ("about", "<section>about</section>") :: initialState.cache,
         [Ev.fetchReq "about"]) ∧
    loadComponent failFetchEnv.fetch (("about", "<section>about</section>") :: initialState.cache) "about"
      = ("<section>about</section>", ("about", "<section>about</section>") :: initialState.cache, []) ∧
    lookupCache (run { initialState with cache := ("about", "<section>about</section>") :: initialState.cache }
        [(allOkEnv, Op.nav "news"), (failFetchEnv, Op.prefetch "contact"), (allOkEnv, Op.nav "about")]).1.cache
      "about" = some "<section>about</section>" :=
  c4_cache_correctness sampleFetch failFetchEnv.fetch initialState "about"
    "<section>about</section>"
    [(allOkEnv, Op.nav "news"), (failFetchEnv, Op.prefetch "contact"), (allOkEnv, Op.nav "about")]
    (by decide) (by decide)

/-- Claim C5: a first prefetch of a registered, uncached path issues exactly
one fetch; an immediate second prefetch of the same path — under any
network — is a no-op; and once in the prefetched set the path stays in
it for the rest of the session. -/
theorem c5_prefetch_dedup (env env2 : Env) (s : RouterState) (p : String) (r : Route)
    (ops : List (Env × Op))
    (hpre : p ∉ s.prefetchedRoutes)
    (hroute : routesGet p = some r)
    (hmiss : lookupCache s.cache r.component = none) :
    (prefetchRoute env s p).2 = [Ev.fetchReq r.component] ∧
    prefetchRoute env2 (prefetchRoute env s p).1 p = ((prefetchRoute env s p).1, []) ∧
    p ∈ (run (prefetchRoute env s p).1 ops).1.prefetchedRoutes := by
  have hpf : prefetchRoute env s p
      = ({ s with cache := (loadComponent env.fetch s.cache r.component).2.1,
                  prefetchedRoutes := p :: s.prefetchedRoutes },
         (loadComponent env.fetch s.cache r.component).2.2) := by
    rw [prefetchRoute, if_neg hpre, hroute]
  have htr : (loadComponent env.fetch s.cache r.component).2.2 = [Ev.fetchReq r.component] := by
    rw [loadComponent, hmiss]
    cases env.fetch r.component <;> rfl
  refine ⟨by rw [hpf]; exact htr, ?_, ?_⟩
  · rw [hpf, prefetchRoute, if_pos (by simp)]
  · exact run_prefetched_mono p ops _ (by rw [hpf]; simp)

theorem c5_prefetch_dedup_witness :
    (prefetchRoute allOkEnv initialState "about").2 = [Ev.fetchReq "about"] ∧
    prefetchRoute failFetchEnv (prefetchRoute allOkEnv initialState "about").1 "about"
      = ((prefetchRoute allOkEnv initialState "about").1, []) ∧
    "about" ∈ (run (prefetchRoute allOkEnv initialState "about").1
        [(allOkEnv, Op.nav "news"), (failFetchEnv, Op.prefetch "rfq")]).1.prefetchedRoutes :=
  c5_prefetch_dedup allOkEnv failFetchEnv initialState "about" ⟨"about", "about", "About Us"⟩
    [(allOkEnv, Op.nav "news"), (failFetchEnv, Op.prefetch "rfq")]
    (by decide) (by decide) (by decide)

/-- Claim C7: every `loadRoute` call that is not the idempotent early return
shows the loading indicator first and hides it on the way out — on
normal completion, on fetch-failure fallback, and on any caught phase
throw — and the call always returns (errors are not rethrown). -/
theorem c7_loading_cleanup (env : Env) (s : RouterState) (p : String)
    (hni : ¬ s.currentRoute = some (resolveRoute p).path) :
    (loadRoute env s p).1.loadingVisible = false ∧
    (loadRoute env s p).2.head? = some Ev.showLoading ∧
    (loadRoute env s p).2.getLast? = some Ev.hideLoading := by
  simp only [loadRoute, catchAndCleanup]
  rw [if_neg hni]
  repeat' split
  all_goals refine ⟨rfl, rfl, ?_⟩
  all_goals simp [List.getLast?_append_cons, List.getLast?]

theorem c7_loading_cleanup_witness :
    (loadRoute renderFailEnv initialState "news").1.loadingVisible = false ∧
    (loadRoute renderFailEnv initialState "news").2.head? = some Ev.showLoading ∧
    (loadRoute renderFailEnv initialState "news").2.getLast? = some Ev.hideLoading :=
  c7_loading_cleanup renderFailEnv initialState "news" (by decide)

/-- Claim C9: a prefetch of a registered, uncached path whose fetch fails still
adds the path to the prefetched set (because `loadComponent` converts the
failure into a returned fallback instead of throwing), caches nothing, a
second prefetch of the path is skipped, and a later component load for
that pageId issues the fetch again. -/
theorem c9_failed_prefetch_marks (env env2 : Env) (f2 : String → Option String)
    (s : RouterState) (p : String) (r : Route)
    (hpre : p ∉ s.prefetchedRoutes)
    (hroute : routesGet p = some r)
    (hmiss : lookupCache s.cache r.component = none)
    (hfail : env.fetch r.component = none) :
    p ∈ (prefetchRoute env s p).1.prefetchedRoutes ∧
    lookupCache (prefetchRoute env s p).1.cache r.component = none ∧
    prefetchRoute env2 (prefetchRoute env s p).1 p = ((prefetchRoute env s p).1, []) ∧
    (loadComponent f2 (prefetchRoute env s p).1.cache r.component).2.2
      = [Ev.fetchReq r.component] := by
  have hlc : loadComponent env.fetch s.cache r.component
      = (getErrorContent r.component, s.cache, [Ev.fetchReq r.component]) := by
    rw [loadComponent, hmiss, hfail]
  have hpf : prefetchRoute env s p
      = ({ s with cache := s.cache, prefetchedRoutes := p :: s.prefetchedRoutes },
         [Ev.fetchReq r.component]) := by
    rw [prefetchRoute, if_neg hpre, hroute]
    simp only [hlc]
  refine ⟨by rw [hpf]; simp, by rw [hpf]; exact hmiss, ?_, ?_⟩
  · rw [hpf, prefetchRoute, if_pos (by simp)]
  · rw [hpf]
    show (loadComponent f2 s.cache r.component).2.2 = [Ev.fetchReq r.component]
    rw [loadComponent, hmiss]
    cases f2 r.component <;> rfl

theorem c9_failed_prefetch_marks_witness :
    "news" ∈ (prefetchRoute failFetchEnv initialState "news").1.prefetchedRoutes ∧
    lookupCache (prefetchRoute failFetchEnv initialState "news").1.cache "news" = none ∧
    prefetchRoute allOkEnv (prefetchRoute failFetchEnv initialState "news").1 "news"
      = ((prefetchRoute failFetchEnv initialState "news").1, []) ∧
    (loadComponent sampleFetch (prefetchRoute failFetchEnv initialState "news").1.cache "news").2.2
      = [Ev.fetchReq "news"] :=
  c9_failed_prefetch_marks failFetchEnv allOkEnv sampleFetch initialState "news"
    ⟨"news", "news", "News & Updates"⟩ (by decide) (by decide) (by decide) (by decide)

/-- Claim C10 (amended): if the throw that reaches the catch block of
`loadRoute` happened before the `currentRoute` assignment (title,
navigation-styling, or render phase), then `currentRoute` still names the
previously rendered page, the content region shows the generic error
block, and — when the previous page is a registered route key — any
subsequent navigation back to it is the idempotent no-op, leaving the
error block visible. -/
theorem c10_pre_render_error_atomicity (env env2 : Env) (s : RouterState) (p q : String)
    (hprev : s.currentRoute = some q)
    (hq : (resolveRoute q).path = q)
    (hni : ¬ q = (resolveRoute p).path)
    (hphase : env.titleOk = false ∨ env.navOk = false ∨ env.renderOk = false) :
    (loadRoute env s p).1.currentRoute = some q ∧
    (loadRoute env s p).1.dom = errorPageContent ∧
    loadRoute env2 (loadRoute env s p).1 q = ((loadRoute env s p).1, []) := by
  have hni2 : ¬ s.currentRoute = some (resolveRoute p).path := by
    rw [hprev]; intro hcon; exact hni (Option.some.injEq q (resolveRoute p).path ▸ by
      simpa using hcon)
  have hmain : (loadRoute env s p).1.currentRoute = some q ∧
      (loadRoute env s p).1.dom = errorPageContent := by
    simp only [loadRoute, catchAndCleanup]
    rw [if_neg hni2]
    rcases hphase with hph | hph | hph
    all_goals repeat' split
    all_goals simp_all
  refine ⟨hmain.1, hmain.2, ?_⟩
  have : (loadRoute env s p).1.currentRoute = some (resolveRoute q).path := by
    rw [hmain.1, hq]
  rw [loadRoute, if_pos this]

theorem c10_pre_render_error_atomicity_witness :
    (loadRoute renderFailEnv (loadRoute allOkEnv initialState "about").1 "news").1.currentRoute
      = some "about" ∧
    (loadRoute renderFailEnv (loadRoute allOkEnv initialState "about").1 "news").1.dom
      = errorPageContent ∧
    loadRoute allOkEnv
        (loadRoute renderFailEnv (loadRoute allOkEnv initialState "about").1 "news").1 "about"
      = ((loadRoute renderFailEnv (loadRoute allOkEnv initialState "about").1 "news").1, []) :=
  c10_pre_render_error_atomicity renderFailEnv allOkEnv
    (loadRoute allOkEnv initialState "about").1 "news" "about"
    (by decide) (by decide) (by decide) (Or.inr (Or.inr rfl))

/-- Claim C10 counterexample: a hook throw also reaches the catch block, but it
happens after the `currentRoute` assignment — the error block is rendered
while `currentRoute` already names the new page, not the previous one. -/
theorem c10_counterexample :
    Ev.errorHandled ∈ (loadRoute hookFailEnv (loadRoute allOkEnv initialState "about").1 "news").2 ∧
    (loadRoute allOkEnv initialState "about").1.currentRoute = some "about" ∧
    (loadRoute hookFailEnv (loadRoute allOkEnv initialState "about").1 "news").1.currentRoute
      = some "news" ∧
    (loadRoute hookFailEnv (loadRoute allOkEnv initialState "about").1 "news").1.currentRoute
      ≠ some "about" := by
  decide

end KTL
